import Mathlib

/-!
Verification of the reset/clock sequencing logic of the ECP5-Mini board
support file (`src/litex/soc-hr/ecp5_mini.py`, class `_CRG`).

The `_CRG` module contains three pieces of timing logic, all clocked by the
16 MHz reference clock (`por` clock domain):

* a power-on-reset countdown: a 12-bit register `por_count` with reset value
  `2^12 - 1` that decrements while nonzero; `por_done` is the combinational
  comparison `por_count == 0` (lines 44-49);
* the PLL reset wire `pll.reset = ~por_done | ~rst_n | self.rst` (line 53),
  where `rst_n` is the user button (1 = released, hard-wired to 1 when the
  pin is absent, lines 41-42) and `self.rst` is the external soft-reset line;
* a `WaitTimer(int(16e6))` whose `wait` input is `~rst_n` and whose `done`
  output drives the board reset pin through `rst_n_pin = ~done`
  (lines 68-73).

The `WaitTimer` class itself is imported from `migen.genlib.misc` and its
source is not part of this repository, so it is modelled here from the
specification (see `wt_step` / `wt_done`).  Everything else is translated
directly from the source.  Registers are modelled as natural numbers with an
explicit `% 2 ^ 12` where the source register is 12 bits wide; one step of a
model function corresponds to one tick of the reference clock, and a
combinational output observed during tick `k+1` is the derived function
applied to the register state after `k` steps.
-/

namespace Ecp5Mini

/-! ### Power-on-reset countdown (lines 44-49) -/

/-- Reset value of the `por_count` register: `Signal(12, reset=2**12-1)`
(line 45). -/
def por_count_reset : Nat := 2 ^ 12 - 1

/-- `por_done.eq(por_count == 0)` (line 48): combinational comparison of the
current register value with zero. -/
def por_done (c : Nat) : Bool := c == 0

/-- One tick of `sync.por += If(~por_done, por_count.eq(por_count - 1))`
(line 49): while `por_done` is false the 12-bit register decrements; the
`% 2 ^ 12` reflects the 12-bit register width. -/
def por_count_step (c : Nat) : Nat :=
  if por_done c then c else (c - 1) % 2 ^ 12

/-- The `por_count` register after `n` ticks, starting from value `c`. -/
def porIter (c : Nat) : Nat → Nat
  | 0 => c
  | n + 1 => por_count_step (porIter c n)

/-! ### PLL reset wire (line 53) -/

/-- `pll.reset.eq(~por_done | ~rst_n | self.rst)` (line 53), translated
literally from the source: `pd` is `por_done`, `rstn` the button signal
(true = released), `r` the soft-reset input of the module `self.rst`. -/
def pll_reset (pd rstn r : Bool) : Bool :=
  (!pd) || (!rstn) || r

/-- Spec-side formula for the PLL reset, written from the specification
sentence `pll_reset = NOT por_ready OR NOT button_released OR
manual_reset_request`, to be compared with `pll_reset` above. -/
def pll_reset_spec (por_ready button_released manual_reset_request : Bool) : Bool :=
  (!por_ready) || (!button_released) || manual_reset_request

/-! ### WaitTimer (instantiated line 69; class imported from migen) -/

/-- Modelled from the spec: the `WaitTimer` class is imported from
`migen.genlib.misc` (line 17) and its source is not in this repository.
Per the spec, each tick where `wait` is true increments the elapsed count,
and any tick where `wait` is false resets the elapsed count to 0. -/
def wt_step (wait : Bool) (elapsed : Nat) : Nat :=
  if wait then elapsed + 1 else 0

/-- Modelled from the spec: the `WaitTimer` is done (its `triggered` output)
exactly when the elapsed count has reached the configured target number of
ticks; it stays latched while `wait` stays true because the elapsed count
keeps growing. -/
def wt_done (target elapsed : Nat) : Bool :=
  decide (target ≤ elapsed)

/-- WaitTimer elapsed count after consuming a list of `wait` inputs starting
from elapsed count `e`. -/
def wtRunFrom (e : Nat) (ws : List Bool) : Nat :=
  ws.foldl (fun a w => wt_step w a) e

/-- WaitTimer elapsed count after consuming a list of `wait` inputs from the
initial (IDLE) state. -/
def wtRun (ws : List Bool) : Nat :=
  wtRunFrom 0 ws

/-! ### ResetSequencer wiring (lines 41-42 and 68-73) -/

/-- `WaitTimer(int(16e6))` (line 69): the configured target of the reset
timer, one second of 16 MHz reference-clock ticks. -/
def reset_timer_target : Nat := 16000000

/-- `reset_timer.wait.eq(~rst_n)` (line 72): the timer counts while the
button is held (button signal low). -/
def reset_timer_wait (rstn : Bool) : Bool := !rstn

/-- `platform.request("rst_n").eq(~reset_timer.done)` (line 73): the board
reset output pin is the inverse of the `done` output of the timer. -/
def rst_n_out (done : Bool) : Bool := !done

/-- Lines 41-42: `rst_n = platform.request("usr_btn", loose=True);
if rst_n is None: rst_n = 1`.  An absent button pin is replaced by the
constant released value. -/
def resolve_usr_btn (hw : Option Bool) : Bool :=
  match hw with
  | some b => b
  | none => true

/-- Spec-side definition: the length of the trailing run of ticks on which
the button has been held (button_released = false), i.e. how long the button
has been held continuously as of the end of the input history. -/
def heldStreak (bs : List Bool) : Nat :=
  bs.foldl (fun s b => if b then 0 else s + 1) 0

/-! ### Combined CRG state (for the non-interference claim) -/

/-- The registered state of the `_CRG` reset logic: the POR countdown and
the WaitTimer elapsed count, both clocked in the `por` domain. -/
structure CrgState where
  por_count : Nat
  elapsed : Nat
  deriving DecidableEq, Repr

/-- One reference-clock tick of the `_CRG` registers, given the per-tick
inputs `rstn` (button signal, true = released) and `r` (soft reset
`self.rst`).  The POR countdown steps unconditionally; the WaitTimer input
is wired to `~rst_n` (line 72); `r` drives no register. -/
def crg_step (st : CrgState) (rstn : Bool) (_r : Bool) : CrgState :=
  { por_count := por_count_step st.por_count
    elapsed := wt_step (reset_timer_wait rstn) st.elapsed }

/-- Run the `_CRG` registers over a list of per-tick inputs
`(rstn, self.rst)`. -/
def crgRun (st : CrgState) : List (Bool × Bool) → CrgState
  | [] => st
  | i :: is => crgRun (crg_step st i.1 i.2) is

/-! ### Helper lemmas -/

/-- For a representable start value, the POR countdown after `k` ticks is
truncated subtraction. -/
theorem porIter_eq_sub (c : Nat) (hc : c < 2 ^ 12) (k : Nat) :
    porIter c k = c - k := by
  induction k with
  | zero => rfl
  | succ k ih =>
    show por_count_step (porIter c k) = c - (k + 1)
    rw [ih]
    unfold por_count_step por_done
    rcases Nat.eq_zero_or_pos (c - k) with h0 | hpos
    · simp [h0]
      omega
    · have hne : ((c - k : Nat) == 0) = false := by
        simp [Nat.pos_iff_ne_zero.mp hpos]
      rw [hne]
      simp only [Bool.false_eq_true, if_false]
      rw [Nat.mod_eq_of_lt (by omega)]
      omega

/-- Warming up the WaitTimer: a run of `k` true inputs adds `k` to the
elapsed count. -/
theorem wtRunFrom_replicate_true (e k : Nat) :
    wtRunFrom e (List.replicate k true) = e + k := by
  induction k generalizing e with
  | zero => simp [wtRunFrom]
  | succ k ih =>
    rw [List.replicate_succ]
    show wtRunFrom (wt_step true e) (List.replicate k true) = e + (k + 1)
    rw [ih]
    simp [wt_step]
    omega

/-- Appending input lists composes the WaitTimer runs. -/
theorem wtRunFrom_append (e : Nat) (l1 l2 : List Bool) :
    wtRunFrom e (l1 ++ l2) = wtRunFrom (wtRunFrom e l1) l2 := by
  simp [wtRunFrom, List.foldl_append]

/-- A false `wait` input forgets the elapsed count. -/
theorem wtRunFrom_false_cons (e : Nat) (l : List Bool) :
    wtRunFrom e (false :: l) = wtRun l := by
  simp [wtRunFrom, wtRun, wt_step]

/-- Wiring the button stream through `reset_timer.wait = ~rst_n` makes the
WaitTimer elapsed count compute the trailing held streak of the button. -/
theorem wtRun_map_wait_eq_heldStreak (bs : List Bool) :
    wtRun (bs.map reset_timer_wait) = heldStreak bs := by
  suffices h : ∀ e, wtRunFrom e (bs.map reset_timer_wait)
      = bs.foldl (fun s b => if b then 0 else s + 1) e by
    exact h 0
  induction bs with
  | nil => intro e; rfl
  | cons b bs ih =>
    intro e
    show wtRunFrom (wt_step (reset_timer_wait b) e) (bs.map reset_timer_wait) = _
    rw [ih]
    cases b <;> simp [wt_step, reset_timer_wait]

/-! ### Claims -/

/-- C1: the PLL reset output of the `_CRG` equals
`NOT por_done OR NOT rst_n OR self.rst`, a pure function of the current
inputs (no register is involved), it is true whenever `por_done` is false,
and true whenever the soft reset `self.rst` is asserted, regardless of the
other inputs. -/
theorem claim_C1_pll_reset_comb :
    (∀ pd rstn r, pll_reset pd rstn r = pll_reset_spec pd rstn r)
    ∧ (∀ rstn r, pll_reset false rstn r = true)
    ∧ (∀ pd rstn, pll_reset pd rstn true = true) := by
  refine ⟨?_, ?_, ?_⟩ <;> decide

/-- C2: for every representable start value `c` of the 12-bit countdown, the
`por_done` signal observed after `k` ticks equals `c ≤ k`: it is false on
exactly the first `c` ticks (observations after 0, …, c-1 steps) and true on
every tick thereafter; in particular for `c = 0` it is already true on the
first tick. -/
theorem claim_C2_por_ready_exact (c : Nat) (hc : c < 2 ^ 12) :
    (∀ k, por_done (porIter c k) = decide (c ≤ k))
    ∧ (∀ k, k < c → por_done (porIter c k) = false)
    ∧ (∀ k, c ≤ k → por_done (porIter c k) = true) := by
  have key : ∀ k, por_done (porIter c k) = decide (c ≤ k) := by
    intro k
    rw [porIter_eq_sub c hc k]
    unfold por_done
    rcases le_or_lt c k with h | h
    · simp [Nat.sub_eq_zero_of_le h, h]
    · have hne : c - k ≠ 0 := by omega
      have hnle : ¬ c ≤ k := by omega
      simp [hne, hnle]
  refine ⟨key, ?_, ?_⟩
  · intro k hk
    rw [key k]
    simp
    omega
  · intro k hk
    rw [key k]
    simp [hk]

/-- C2 witness: the theorem applied at `c = 3`, giving the concrete
observations of `por_done`. -/
theorem claim_C2_por_ready_exact_witness :
    (3 : Nat) < 2 ^ 12
    ∧ ((∀ k, por_done (porIter 3 k) = decide (3 ≤ k))
      ∧ (∀ k, k < 3 → por_done (porIter 3 k) = false)
      ∧ (∀ k, 3 ≤ k → por_done (porIter 3 k) = true)) :=
  ⟨by norm_num, claim_C2_por_ready_exact 3 (by norm_num)⟩

/-- C3: for every positive target, the done output of the WaitTimer after a run
of `k` consecutive true `wait` inputs from the IDLE state is false while
`k < target`, true for every `k ≥ target` (so it becomes true exactly on
tick number `target` and stays latched while `wait` stays true), and a tick
with `wait = false` resets the elapsed count to 0 in that same step, where
the done output is false again. -/
theorem claim_C3_waittimer_trigger (t : Nat) (ht : 0 < t) :
    (∀ k, k < t → wt_done t (wtRun (List.replicate k true)) = false)
    ∧ (∀ k, t ≤ k → wt_done t (wtRun (List.replicate k true)) = true)
    ∧ (∀ e, wt_step false e = 0)
    ∧ wt_done t 0 = false := by
  have run : ∀ k, wtRun (List.replicate k true) = k := by
    intro k
    unfold wtRun
    rw [wtRunFrom_replicate_true]
    omega
  refine ⟨?_, ?_, ?_, ?_⟩
  · intro k hk
    rw [run k]
    simp [wt_done]
    omega
  · intro k hk
    rw [run k]
    simp [wt_done, hk]
  · intro e
    rfl
  · simp [wt_done]
    omega

/-- C3 witness: the theorem applied at `target = 4`. -/
theorem claim_C3_waittimer_trigger_witness :
    (0 : Nat) < 4
    ∧ ((∀ k, k < 4 → wt_done 4 (wtRun (List.replicate k true)) = false)
      ∧ (∀ k, 4 ≤ k → wt_done 4 (wtRun (List.replicate k true)) = true)
      ∧ (∀ e, wt_step false e = 0)
      ∧ wt_done 4 0 = false) :=
  ⟨by norm_num, claim_C3_waittimer_trigger 4 (by norm_num)⟩

/-- C4: the `_CRG` feeds the WaitTimer with `wait = ~rst_n`, produces the
board reset pin as `~done` with a target of `int(16e6)` ticks (one second at
the 16 MHz reference clock), and the behavioral contract holds in a
polarity-independent form: after any input history of the button signal, the
board reset output leaves its released (true) value if and only if the
button has been held continuously for at least the target number of
ticks. -/
theorem claim_C4_fallback_iff_held (t : Nat) (bs : List Bool) :
    (∀ b, reset_timer_wait b = !b)
    ∧ (∀ d, rst_n_out d = !d)
    ∧ reset_timer_target = 16000000
    ∧ (rst_n_out (wt_done t (wtRun (bs.map reset_timer_wait))) = false
        ↔ t ≤ heldStreak bs) := by
  refine ⟨fun b => rfl, fun d => rfl, rfl, ?_⟩
  rw [wtRun_map_wait_eq_heldStreak]
  unfold rst_n_out wt_done
  constructor
  · intro h
    simpa using h
  · intro h
    simp [h]

/-- C5: the WaitTimer has no memory of prior progress: after any
input history followed by one false `wait` tick, a subsequent run of `k`
consecutive true inputs with `k < target` leaves the done output false; in
particular the sequence `true ×5, false ×1, true ×(target-1)` never triggers
it. -/
theorem claim_C5_restart_from_zero (t : Nat) (ht : 0 < t) :
    (∀ (l : List Bool) (k : Nat), k < t →
      wt_done t (wtRun (l ++ false :: List.replicate k true)) = false)
    ∧ wt_done t (wtRun (List.replicate 5 true ++ false ::
        List.replicate (t - 1) true)) = false := by
  have run : ∀ (l : List Bool) (k : Nat),
      wtRun (l ++ false :: List.replicate k true) = k := by
    intro l k
    unfold wtRun
    rw [wtRunFrom_append, wtRunFrom_false_cons]
    unfold wtRun
    rw [wtRunFrom_replicate_true]
    omega
  constructor
  · intro l k hk
    rw [run l k]
    simp [wt_done]
    omega
  · rw [run (List.replicate 5 true) (t - 1)]
    simp [wt_done]
    omega

/-- C5 witness: the theorem applied at `target = 4`, including the concrete
sequence `true ×5, false, true ×3`. -/
theorem claim_C5_restart_from_zero_witness :
    (0 : Nat) < 4
    ∧ ((∀ (l : List Bool) (k : Nat), k < 4 →
        wt_done 4 (wtRun (l ++ false :: List.replicate k true)) = false)
      ∧ wt_done 4 (wtRun (List.replicate 5 true ++ false ::
          List.replicate (4 - 1) true)) = false) :=
  ⟨by norm_num, claim_C5_restart_from_zero 4 (by norm_num)⟩

/-- A run of false `wait` inputs keeps the elapsed count at 0. -/
theorem wtRun_replicate_false (n : Nat) : wtRun (List.replicate n false) = 0 := by
  induction n with
  | zero => rfl
  | succ n ih =>
    rw [List.replicate_succ]
    show wtRunFrom 0 (false :: List.replicate n false) = 0
    rw [wtRunFrom_false_cons]
    exact ih

/-- C6: in every reachable (12-bit representable) state of the POR
countdown, one tick leaves the register unchanged or decreases it by exactly
one: it is unchanged when `por_done` is true (so it saturates at 0 and never
wraps) and decrements by one otherwise, and once `por_done` has become true
it stays true on every later tick. -/
theorem claim_C6_por_monotone (c : Nat) (hc : c < 2 ^ 12) :
    (por_count_step c ≤ c ∧ c ≤ por_count_step c + 1)
    ∧ (por_done c = true → por_count_step c = c)
    ∧ (por_done c = false → por_count_step c = c - 1)
    ∧ (∀ n m, por_done (porIter c n) = true →
        por_done (porIter c (n + m)) = true) := by
  have hstep : por_count_step c = if c = 0 then c else c - 1 := by
    unfold por_count_step por_done
    rcases Nat.eq_zero_or_pos c with h0 | hpos
    · simp [h0]
    · have hne : (c == 0) = false := by simp; omega
      rw [hne]
      simp only [Bool.false_eq_true, if_false]
      rw [Nat.mod_eq_of_lt (by omega)]
      have : ¬ c = 0 := by omega
      simp [this]
  refine ⟨?_, ?_, ?_, ?_⟩
  · rw [hstep]
    rcases Nat.eq_zero_or_pos c with h0 | hpos
    · simp [h0]
    · have : ¬ c = 0 := by omega
      simp [this]
      omega
  · intro hdone
    rw [hstep]
    unfold por_done at hdone
    simp at hdone
    simp [hdone]
  · intro hdone
    rw [hstep]
    unfold por_done at hdone
    simp at hdone
    simp [hdone]
  · intro n m hdone
    rw [porIter_eq_sub c hc] at hdone ⊢
    unfold por_done at hdone ⊢
    simp at hdone ⊢
    omega

/-- C6 witness: the theorem applied at register value `c = 5`. -/
theorem claim_C6_por_monotone_witness :
    (5 : Nat) < 2 ^ 12
    ∧ ((por_count_step 5 ≤ 5 ∧ 5 ≤ por_count_step 5 + 1)
      ∧ (por_done 5 = true → por_count_step 5 = 5)
      ∧ (por_done 5 = false → por_count_step 5 = 5 - 1)
      ∧ (∀ n m, por_done (porIter 5 n) = true →
          por_done (porIter 5 (n + m)) = true)) :=
  ⟨by norm_num, claim_C6_por_monotone 5 (by norm_num)⟩

/-- C7 counterexample: nothing in the code rejects a zero target at
configuration time — a WaitTimer configured with `target_ticks = 0` is a
perfectly well-formed component of the model, and it exhibits exactly the
degenerate behavior the claim says must be prevented: its done output is
already true in the IDLE state and on the very first tick the button is
held. -/
theorem claim_C7_counterexample :
    wt_done 0 (wtRun []) = true
    ∧ wt_done 0 (wtRun (List.replicate 1 true)) = true := by
  constructor <;> rfl

/-- C7 (amended): the code performs no configuration-time validation at all;
instead both parameters are hard-coded positive constants — the POR
countdown starts at `2^12 - 1 = 4095` (line 45) and the WaitTimer target is
`int(16e6) = 16000000` (line 69) — so a zero or negative configuration never
arises in this code, and a WaitTimer that were nevertheless given a zero
target would silently trigger immediately rather than be rejected. -/
theorem claim_C7_hardcoded_positive :
    por_count_reset = 2 ^ 12 - 1
    ∧ 0 < por_count_reset
    ∧ reset_timer_target = 16000000
    ∧ 0 < reset_timer_target
    ∧ wt_done 0 (wtRun (List.replicate 1 true)) = true := by
  refine ⟨rfl, by norm_num [por_count_reset], rfl,
    by norm_num [reset_timer_target], rfl⟩

/-- C8: when the `usr_btn` pin is absent (`platform.request` with
`loose=True` returns `None`), the button signal is hard-wired to the
released value `1` at construction time, and every downstream consumer —
the PLL reset wire and the `wait` input of the WaitTimer — sees exactly what it
would see with a permanently released button. -/
theorem claim_C8_absent_button :
    resolve_usr_btn none = true
    ∧ (∀ pd r, pll_reset pd (resolve_usr_btn none) r = pll_reset pd true r)
    ∧ reset_timer_wait (resolve_usr_btn none) = reset_timer_wait true :=
  ⟨rfl, fun _ _ => rfl, rfl⟩

/-- C9: with the button absent (signal hard-wired true), the WaitTimer
`wait` input is false on every tick, so for every tick count `n` and every
positive target the elapsed count stays 0, the done output stays false, and
the board reset output pin holds its released (true) value on every tick. -/
theorem claim_C9_absent_button_never_triggers (t n : Nat) (ht : 0 < t) :
    reset_timer_wait (resolve_usr_btn none) = false
    ∧ wtRun (List.replicate n (reset_timer_wait (resolve_usr_btn none))) = 0
    ∧ wt_done t
        (wtRun (List.replicate n (reset_timer_wait (resolve_usr_btn none)))) = false
    ∧ rst_n_out (wt_done t
        (wtRun (List.replicate n (reset_timer_wait (resolve_usr_btn none))))) = true := by
  have hw : reset_timer_wait (resolve_usr_btn none) = false := rfl
  rw [hw, wtRun_replicate_false]
  have hd : wt_done t 0 = false := by
    simp [wt_done]
    omega
  rw [hd]
  exact ⟨rfl, rfl, rfl, rfl⟩

/-- C9 witness: the theorem applied at the configured target of 16000000
ticks with a 7-tick run. -/
theorem claim_C9_absent_button_never_triggers_witness :
    (0 : Nat) < 16000000
    ∧ (reset_timer_wait (resolve_usr_btn none) = false
      ∧ wtRun (List.replicate 7 (reset_timer_wait (resolve_usr_btn none))) = 0
      ∧ wt_done 16000000
          (wtRun (List.replicate 7 (reset_timer_wait (resolve_usr_btn none)))) = false
      ∧ rst_n_out (wt_done 16000000
          (wtRun (List.replicate 7 (reset_timer_wait (resolve_usr_btn none))))) = true) :=
  ⟨by norm_num, claim_C9_absent_button_never_triggers 16000000 7 (by norm_num)⟩

/-- C10: the watchdog path is independent of the reset inputs: for any two
runs of the `_CRG` registers that agree on the button signal at every tick
but differ arbitrarily in the soft-reset input and in the POR countdown
state (hence in `por_done`), the WaitTimer elapsed count, its done output
and the board reset output pin are identical after the run — and since the
input lists are arbitrary, at every tick. -/
theorem claim_C10_watchdog_noninterference (t : Nat)
    (is1 is2 : List (Bool × Bool)) (s1 s2 : CrgState)
    (hb : is1.map Prod.fst = is2.map Prod.fst)
    (he : s1.elapsed = s2.elapsed) :
    (crgRun s1 is1).elapsed = (crgRun s2 is2).elapsed
    ∧ wt_done t (crgRun s1 is1).elapsed = wt_done t (crgRun s2 is2).elapsed
    ∧ rst_n_out (wt_done t (crgRun s1 is1).elapsed)
        = rst_n_out (wt_done t (crgRun s2 is2).elapsed) := by
  have key : ∀ (l1 l2 : List (Bool × Bool)), l1.map Prod.fst = l2.map Prod.fst →
      ∀ (u v : CrgState), u.elapsed = v.elapsed →
      (crgRun u l1).elapsed = (crgRun v l2).elapsed := by
    intro l1
    induction l1 with
    | nil =>
      intro l2 h u v hev
      cases l2 with
      | nil => exact hev
      | cons b l2 => simp at h
    | cons a l1 ih =>
      intro l2 h u v hev
      cases l2 with
      | nil => simp at h
      | cons b l2 =>
        simp only [List.map_cons, List.cons.injEq] at h
        show (crgRun (crg_step u a.1 a.2) l1).elapsed
          = (crgRun (crg_step v b.1 b.2) l2).elapsed
        apply ih l2 h.2
        simp [crg_step, h.1, hev]
  have h1 := key is1 is2 hb s1 s2 he
  exact ⟨h1, by rw [h1], by rw [h1]⟩

/-- C10 witness: the theorem applied to two concrete 2-tick runs that agree
on the button signal but differ in the soft-reset input and in the POR
countdown state. -/
theorem claim_C10_watchdog_noninterference_witness :
    (([(true, false), (false, true)] : List (Bool × Bool)).map Prod.fst
        = ([(true, true), (false, false)] : List (Bool × Bool)).map Prod.fst)
    ∧ ((⟨4095, 0⟩ : CrgState).elapsed = (⟨17, 0⟩ : CrgState).elapsed)
    ∧ ((crgRun ⟨4095, 0⟩ [(true, false), (false, true)]).elapsed
          = (crgRun ⟨17, 0⟩ [(true, true), (false, false)]).elapsed
      ∧ wt_done 3 (crgRun (⟨4095, 0⟩ : CrgState) [(true, false), (false, true)]).elapsed
          = wt_done 3 (crgRun (⟨17, 0⟩ : CrgState) [(true, true), (false, false)]).elapsed
      ∧ rst_n_out (wt_done 3 (crgRun (⟨4095, 0⟩ : CrgState)
            [(true, false), (false, true)]).elapsed)
          = rst_n_out (wt_done 3 (crgRun (⟨17, 0⟩ : CrgState)
            [(true, true), (false, false)]).elapsed)) :=
  ⟨by decide, rfl,
    claim_C10_watchdog_noninterference 3
      [(true, false), (false, true)] [(true, true), (false, false)]
      ⟨4095, 0⟩ ⟨17, 0⟩ (by decide) rfl⟩

end Ecp5Mini
